import Mathlib

/-!
# Verification of the ydn-db transaction-thread scheduler (`src/ydn/db/tr/thread.js`)

This file gives a shallow embedding of `ydn.db.tr.Thread` — the
transaction-scheduling queue of ydn-db — and proves properties of its
coroutine-driving protocol: the continuation callback returned by
`setGenerator`, the `commit` / `sendNext_` mid-stream commit protocol,
the `request` wiring of operation settlement to coroutine resumption,
the static `abort` helper, and the diagnostic label `getLabel`.

JavaScript values that flow through the resume channel are modelled by
`JSVal`; JS `Error` objects (with a possible `error` side field, as set by
the failure-wrapping code in `request`) are the `mkError` constructor.
Exceptions thrown by the code are modelled with `Except JsError`.
Asynchronous effects (calling `generator.next(x)` synchronously versus
deferring via `setTimeout` into a freshly opened transaction) are
reified as a `ResumeAction` value returned by the transition function.
-/

namespace YdnDb

/-- `ydn.db.base.TxEventTypes`: transaction lifecycle events delivered to the
completion callback.  `COMPLETE` and `ABORT` are the two the thread reacts
to; `ERROR` stands for any other member of the enum. -/
inductive TxEventType
  | COMPLETE
  | ABORT
  | ERROR
deriving DecidableEq, Repr

/-- `ydn.db.tr.Thread.Policy`: the batching-policy enum. -/
inductive Policy
  | MULTI
  | REPEAT
  | ALL
  | ATOMIC
  | SINGLE
deriving DecidableEq, Repr

/-- `ydn.db.base.TransactionMode`: transaction access mode (scope component). -/
inductive TxMode
  | readonly
  | readwrite
  | versionchange
deriving DecidableEq, Repr

/-- A JavaScript value travelling through the settlement / resume channel.
`errorNoField` is a JS `Error` object whose `error` side field was never
assigned; `errorWithField v` is an `Error` object whose `error` side field
holds `v`; `str` and `num` are ordinary non-`Error` values such as the
failure reason string `"disk full"`. -/
inductive JSVal
  | str (s : String)
  | num (n : Int)
  | undef
  | errorNoField
  | errorWithField (v : JSVal)
deriving DecidableEq, Repr

/-- `e instanceof Error` on a modelled JS value. -/
def JSVal.isError : JSVal → Bool
  | .errorNoField => true
  | .errorWithField _ => true
  | _ => false

/-- The `error` side field of a modelled JS value, when one is set: the
channel through which the original failure reason remains retrievable. -/
def JSVal.errField : JSVal → Option JSVal
  | .errorWithField v => some v
  | _ => none

/-- Exceptions thrown by the thread code: `ydn.debug.error.InvalidOperationException`
(with its message), `ydn.debug.error.NotSupportedException`,
`ydn.db.InvalidStateError` (with its message), and a failed
`goog.asserts.assert` (with its message). -/
inductive JsError
  | invalidOperation (msg : String)
  | notSupported
  | invalidState (msg : String)
  | assertionFailure (msg : String)
deriving DecidableEq, Repr

/-- State of the `generator_` field.  In the source it is `undefined` before
`setGenerator` runs (`unbound`), a live function afterwards (`bound`), and a
defined-but-falsy value (`null`) once the coroutine has concluded (`ended`). -/
inductive GenState
  | unbound
  | bound
  | ended
deriving DecidableEq, Repr

/-- Truthiness of `this.generator_` in a JS condition: only a live bound
function is truthy; `undefined` and `null` are falsy. -/
def GenState.truthy : GenState → Bool
  | .bound => true
  | _ => false

/-- `goog.isDef(this.generator_)`: false only before any binding. -/
def GenState.isDef : GenState → Bool
  | .unbound => false
  | _ => true

/-- The mutable state of a `ydn.db.tr.Thread` (constructor, thread.js lines
41–115).  The `storage_` collaborator is omitted: it is only passed through
by `type` / `getStorage` / `addStoreSchema`, which no claim touches. -/
structure Thread where
  /-- `q_no_`: transaction queue number (final). -/
  q_no : Nat
  /-- `tx_no_`: transaction number, increases by one per transaction created. -/
  tx_no : Nat
  /-- `r_no_`: request number in the current transaction, reset to 0 per transaction. -/
  r_no : Nat
  /-- `scope_store_names`: optional store-name scope (final). -/
  scope_store_names : Option (List String)
  /-- `scope_mode`: optional mode scope (final). -/
  scope_mode : Option TxMode
  /-- `policy` (final). -/
  policy : Policy
  /-- `max_tx_no`: transaction-count cap, 0 = unlimited (final). -/
  max_tx_no : Nat
  /-- `generator_`: the bound coroutine's state. -/
  generator : GenState
  /-- `gen_req_`: whether an initiating request is attached (it is `null` until
  `setGenerator` stores one). -/
  gen_req : Bool
  /-- `break_tx_`: set by `commit`, consumed by `sendNext_`. -/
  break_tx : Bool
deriving DecidableEq, Repr

/-- The constructor `ydn.db.tr.Thread(storage, ptx_no, opt_policy,
opt_store_names, opt_mode, opt_max_tx_no)`: counters start at 0, the policy
defaults to `SINGLE` (`opt_policy || Policy.SINGLE`), the cap defaults to 0
(`opt_max_tx_no || 0`), no generator, no initiating request, no break. -/
def mkThread (ptx_no : Nat) (opt_policy : Option Policy)
    (opt_store_names : Option (List String)) (opt_mode : Option TxMode)
    (opt_max_tx_no : Option Nat) : Thread :=
  { q_no := ptx_no
    tx_no := 0
    r_no := 0
    scope_store_names := opt_store_names
    scope_mode := opt_mode
    policy := opt_policy.getD .SINGLE
    max_tx_no := opt_max_tx_no.getD 0
    generator := .unbound
    gen_req := false
    break_tx := false }

/-- `getTxNo` (thread.js line 240). -/
def Thread.getTxNo (t : Thread) : Nat := t.tx_no

/-- `getQueueNo` (thread.js line 259). -/
def Thread.getQueueNo (t : Thread) : Nat := t.q_no

/-- `setGenerator(gen, req)` (thread.js lines 123–128):
`goog.asserts.assert(!this.generator_, 'thread can have only one generator')`
throws when a generator is already bound; otherwise the coroutine and its
initiating request are stored.  (The returned continuation callback is
`onGenTxCommitted` below, bound to the updated thread.) -/
def Thread.setGenerator (t : Thread) : Except JsError Thread :=
  if t.generator.truthy then
    .error (.assertionFailure "thread can have only one generator")
  else
    .ok { t with generator := .bound, gen_req := true }

/-- `onGenTxCommitted_(type, e)` (thread.js lines 136–143), the continuation
callback returned by `setGenerator`.  Its only effect is the possible call
`gen_req_.setDbValue(this.getTxNo(), !success)`, reified here as
`some (txNo, failed)`; `none` means the initiating request is not resolved. -/
def Thread.onGenTxCommitted (t : Thread) (type : TxEventType) : Option (Nat × Bool) :=
  let done := type == TxEventType.COMPLETE || type == TxEventType.ABORT
  if done && !t.break_tx then
    let success := type == TxEventType.COMPLETE
    some (t.getTxNo, !success)
  else
    none

/-- `commit()` (thread.js lines 149–160): throws
`InvalidOperationException('Transaction thread not running in a generator')`
when `generator_` is `undefined`; sets `break_tx_ = true` when `generator_`
is a live function; throws
`InvalidOperationException('Coroutine transaction thread has been ended')`
when `generator_` is defined but falsy (`null`). -/
def Thread.commit (t : Thread) : Except JsError Thread :=
  if !t.generator.isDef then
    .error (.invalidOperation "Transaction thread not running in a generator")
  else if t.generator.truthy then
    .ok { t with break_tx := true }
  else
    .error (.invalidOperation "Coroutine transaction thread has been ended")

/-- The control effect of one `sendNext_` step: either the coroutine is
resumed synchronously (`generator_['next'](x)` in the same turn), or the
resume is deferred (`setTimeout(..., 4)`) into a new transaction opened by
`processTx` over the recorded scope, with `generator_['next'](x)` run once
that transaction is active. -/
inductive ResumeAction
  | immediate (x : JSVal)
  | deferredNewTx (store_names : Option (List String)) (mode : Option TxMode) (x : JSVal)
deriving DecidableEq, Repr

/-- `sendNext_(x)` (thread.js lines 168–187): when `break_tx_` is set it is
cleared first, and the resume is deferred into a fresh transaction opened
with `me.scope_store_names` / `me.scope_mode`; otherwise the coroutine is
resumed synchronously with `x`. -/
def Thread.sendNext (t : Thread) (x : JSVal) : Thread × ResumeAction :=
  if t.break_tx then
    ({ t with break_tx := false },
     .deferredNewTx t.scope_store_names t.scope_mode x)
  else
    (t, .immediate x)

/-- Modelled from the spec: `processTx` is declared abstract in thread.js
(line 303) and implemented by per-engine subclasses outside this repository
slice; the spec states that opening the new transaction increments
`txNumber` and resets `requestNumber` to 0.  This is the state effect of one
new transaction beginning on the thread. -/
def Thread.openNewTx (t : Thread) : Thread :=
  { t with tx_no := t.tx_no + 1, r_no := 0 }

/-- Modelled from the spec: the `r_no_` field doc (thread.js lines 63–68)
says it increases by one per request created from this thread; the mutation
itself lives in subclasses outside this repository slice. -/
def Thread.issueRequest (t : Thread) : Thread :=
  { t with r_no := t.r_no + 1 }

/-- Counter-affecting thread events: a new transaction beginning, or a
request being issued inside the current transaction. -/
inductive ThreadOp
  | openTx
  | issueReq
deriving DecidableEq, Repr

/-- Apply one counter-affecting event to the thread state. -/
def Thread.applyOp (t : Thread) : ThreadOp → Thread
  | .openTx => t.openNewTx
  | .issueReq => t.issueRequest

/-- How a returned `ydn.db.Request`'s settlement is wired (thread.js lines
201–212): `genWiring` when `this.generator_` was truthy at `request` time and
`addCallbacks` attached the resume pair; `noWiring` otherwise. -/
inductive Wiring
  | noWiring
  | genWiring
deriving DecidableEq, Repr

/-- The `ydn.db.Request` value returned by `Thread.request`: its method tag
and the settlement wiring attached to it. -/
structure Request where
  method : String
  wiring : Wiring
deriving DecidableEq, Repr

/-- Settlement of a pending operation: success value or failure reason. -/
inductive Settlement
  | success (x : JSVal)
  | failure (e : JSVal)
deriving DecidableEq, Repr

/-- The failure-normalisation in `request`'s errback (thread.js lines
204–210): a reason that is not `instanceof Error` is replaced by a fresh
`new Error()` whose `error` field is set to the original reason; an `Error`
reason passes through unchanged. -/
def wrapFailure (e : JSVal) : JSVal :=
  if e.isError then e else JSVal.errorWithField e

/-- What a settlement of the request delivers to `sendNext_` (thread.js lines
202–211): nothing when no callbacks were attached; the success value as-is;
the failure reason normalised by `wrapFailure`. -/
def settleResume : Wiring → Settlement → Option JSVal
  | .noWiring, _ => none
  | .genWiring, .success x => some x
  | .genWiring, .failure e => some (wrapFailure e)

/-- `request(method, store_names, opt_mode, opt_oncompleted)` (thread.js
lines 198–215): constructs `new ydn.db.Request(method)`, attaches the
generator resume callbacks exactly when `this.generator_` is truthy, and
returns the request immediately.  The thread state is returned unchanged:
the body mutates no field.  `store_names`, `opt_mode` and `opt_oncompleted`
are accepted and ignored by the base implementation. -/
def Thread.request (t : Thread) (method : String) (_store_names : List String)
    (_opt_mode : Option TxMode) (_opt_oncompleted : Option Unit) :
    Thread × Request :=
  (t, { method := method
        wiring := if t.generator.truthy then .genWiring else .noWiring })

/-- A native transaction handle as inspected by the static abort helper:
whether `tx.abort` is a function, and whether `tx.executeSql` is a function. -/
structure TxHandle where
  hasAbort : Bool
  hasExecuteSql : Bool
deriving DecidableEq, Repr

/-- The effect of a successful static abort: either the handle's native
`abort()` primitive was invoked, or `executeSql('ABORT', [], null, cb)` was
issued with an error callback returning `true`, forcing an engine-level
error to roll the transaction back. -/
inductive AbortEffect
  | nativeAbort
  | forcedSqlError
deriving DecidableEq, Repr

/-- Static `ydn.db.tr.Thread.abort(tx)` (thread.js lines 323–348): with no
handle, throws `InvalidStateError('No active transaction')`; with a native
`abort` function, invokes it; otherwise with an `executeSql` function,
forces an engine-level error to trigger rollback; with neither, throws
`NotSupportedException`. -/
def staticAbort : Option TxHandle → Except JsError AbortEffect
  | none => .error (.invalidState "No active transaction")
  | some tx =>
    if tx.hasAbort then .ok .nativeAbort
    else if tx.hasExecuteSql then .ok .forcedSqlError
    else .error .notSupported

/-- Decimal digit character for `d < 10`, code point `48 + d`, as produced
by JS number-to-string coercion. -/
def digitChar (d : Nat) : Char := Char.ofNat (48 + d)

/-- Decimal digit characters of `n` (most significant first), with an
explicit structural fuel; `fuel > n` suffices. -/
def natDecAux : Nat → Nat → List Char
  | 0, _ => []
  | fuel + 1, n =>
    if n < 10 then [digitChar n]
    else natDecAux fuel (n / 10) ++ [digitChar (n % 10)]

/-- Decimal digit characters of `n`, as JS renders a nonnegative number. -/
def natDec (n : Nat) : List Char := natDecAux (n + 1) n

/-- `getLabel()` (thread.js lines 288–290): the string
`'B' + this.q_no_ + 'T' + this.tx_no_`. -/
def Thread.getLabel (t : Thread) : String :=
  ⟨'B' :: natDec t.q_no ++ 'T' :: natDec t.tx_no⟩

/-- Decimal value of a digit-character list (most significant first). -/
def decVal (l : List Char) : Nat :=
  l.foldl (fun acc c => 10 * acc + (c.toNat - 48)) 0

end YdnDb

namespace YdnDb

/-! ## Helper lemmas for the decimal label -/

theorem digitChar_toNat {d : Nat} (hd : d < 10) : (digitChar d).toNat = 48 + d := by
  interval_cases d <;> decide

theorem digitChar_ne_T {d : Nat} (hd : d < 10) : digitChar d ≠ 'T' := by
  interval_cases d <;> decide

theorem natDecAux_mem {fuel n : Nat} {c : Char} (hc : c ∈ natDecAux fuel n) :
    ∃ d, d < 10 ∧ c = digitChar d := by
  induction fuel generalizing n with
  | zero => simp [natDecAux] at hc
  | succ fuel ih =>
    rw [natDecAux] at hc
    by_cases h : n < 10
    · simp [h] at hc
      exact ⟨n, h, hc⟩
    · simp [h] at hc
      rcases hc with hc | hc
      · exact ih hc
      · exact ⟨n % 10, Nat.mod_lt _ (by norm_num), hc⟩

theorem natDec_no_T {n : Nat} : 'T' ∉ natDec n := by
  intro hmem
  obtain ⟨d, hd, hc⟩ := natDecAux_mem hmem
  exact digitChar_ne_T hd hc.symm

theorem natDecAux_foldl {fuel n : Nat} (h : n < fuel) (acc : Nat) :
    (natDecAux fuel n).foldl (fun acc c => 10 * acc + (c.toNat - 48)) acc =
      acc * 10 ^ (natDecAux fuel n).length + n := by
  induction fuel generalizing n acc with
  | zero => omega
  | succ fuel ih =>
    rw [natDecAux]
    by_cases hn : n < 10
    · simp only [if_pos hn, List.foldl_cons, List.foldl_nil, List.length_cons,
        List.length_nil, digitChar_toNat hn]
      omega
    · have hdiv : n / 10 < fuel := by
        have h1 : n / 10 < n := Nat.div_lt_self (by omega) (by norm_num)
        omega
      have hmod : n % 10 < 10 := Nat.mod_lt _ (by norm_num)
      simp only [if_neg hn, List.foldl_append, List.foldl_cons, List.foldl_nil,
        List.length_append, List.length_cons, List.length_nil]
      rw [ih hdiv acc, digitChar_toNat hmod]
      have h48 : 48 + n % 10 - 48 = n % 10 := by omega
      rw [h48]
      calc 10 * (acc * 10 ^ (natDecAux fuel (n / 10)).length + n / 10) + n % 10
          = acc * (10 ^ (natDecAux fuel (n / 10)).length * 10) +
              (10 * (n / 10) + n % 10) := by ring
        _ = acc * (10 ^ (natDecAux fuel (n / 10)).length * 10) + n := by
            rw [Nat.div_add_mod]
        _ = acc * 10 ^ ((natDecAux fuel (n / 10)).length + (0 + 1)) + n := by
            rw [pow_succ]

theorem decVal_natDec (n : Nat) : decVal (natDec n) = n := by
  unfold decVal natDec
  rw [natDecAux_foldl (Nat.lt_succ_self n) 0]
  simp

theorem natDec_injective {m n : Nat} (h : natDec m = natDec n) : m = n := by
  have := decVal_natDec m
  rw [h, decVal_natDec] at this
  exact this.symm

theorem split_at_T {xs xs' ys ys' : List Char}
    (hx : 'T' ∉ xs) (hx' : 'T' ∉ xs')
    (h : xs ++ 'T' :: ys = xs' ++ 'T' :: ys') : xs = xs' ∧ ys = ys' := by
  induction xs generalizing xs' with
  | nil =>
    cases xs' with
    | nil => simpa using h
    | cons c rest =>
      simp only [List.nil_append, List.cons_append, List.cons.injEq] at h
      exact absurd (h.1 ▸ List.mem_cons_self c rest) (h.1 ▸ hx')
  | cons c rest ih =>
    cases xs' with
    | nil =>
      simp only [List.cons_append, List.nil_append, List.cons.injEq] at h
      exact absurd (h.1 ▸ List.mem_cons_self c rest) (by rw [h.1] at hx; exact hx)
    | cons c' rest' =>
      simp only [List.cons_append, List.cons.injEq] at h
      have hrest : 'T' ∉ rest := fun hm => hx (List.mem_cons_of_mem _ hm)
      have hrest' : 'T' ∉ rest' := fun hm => hx' (List.mem_cons_of_mem _ hm)
      obtain ⟨h1, h2⟩ := ih hrest hrest' h.2
      exact ⟨by rw [h.1, h1], h2⟩

end YdnDb

namespace YdnDb

/-! ## Claims -/

/-- C1: for a thread with a bound coroutine, the continuation callback
resolves the initiating request with `(txNumber, failed)` exactly when the
event is `COMPLETE` or `ABORT` and no mid-stream commit is pending:
`failed` is `false` for `COMPLETE` and `true` for `ABORT`; with
`break_tx` set, or any other event type, nothing is resolved. -/
theorem c1_onGenTxCommitted_resolution (t : Thread) (ty : TxEventType)
    (_hgen : t.generator = .bound) :
    (t.break_tx = false → ty = .COMPLETE →
        t.onGenTxCommitted ty = some (t.tx_no, false)) ∧
    (t.break_tx = false → ty = .ABORT →
        t.onGenTxCommitted ty = some (t.tx_no, true)) ∧
    (t.break_tx = true → t.onGenTxCommitted ty = none) ∧
    (ty ≠ .COMPLETE → ty ≠ .ABORT → t.onGenTxCommitted ty = none) := by
  refine ⟨?_, ?_, ?_, ?_⟩
  · intro hb hty; subst hty; simp [Thread.onGenTxCommitted, Thread.getTxNo, hb]
  · intro hb hty; subst hty; simp [Thread.onGenTxCommitted, Thread.getTxNo, hb]
  · intro hb; cases ty <;> simp [Thread.onGenTxCommitted, hb]
  · intro h1 h2; cases ty <;> simp_all [Thread.onGenTxCommitted]

/-- Witness for C1 at a concrete bound thread. -/
theorem c1_witness :
    let t : Thread := { q_no := 1, tx_no := 5, r_no := 2,
                        scope_store_names := some ["orders"],
                        scope_mode := some .readwrite, policy := .SINGLE,
                        max_tx_no := 0, generator := .bound, gen_req := true,
                        break_tx := false }
    t.onGenTxCommitted .COMPLETE = some (5, false) ∧
      t.onGenTxCommitted .ABORT = some (5, true) ∧
      t.onGenTxCommitted .ERROR = none := by
  intro t
  refine ⟨(c1_onGenTxCommitted_resolution t .COMPLETE rfl).1 rfl rfl, ?_, ?_⟩
  · exact (c1_onGenTxCommitted_resolution t .ABORT rfl).2.1 rfl rfl
  · exact (c1_onGenTxCommitted_resolution t .ERROR rfl).2.2.2
      (by decide) (by decide)

/-- C2: `sendNext_` with `break_tx_` clear resumes the coroutine
synchronously with the value and leaves the flag clear; with `break_tx_`
set, the flag is cleared and the resume is a deferred task that opens a
new transaction over the same recorded scope and resumes the coroutine
with the original value inside it.  In every case the resulting thread
has `break_tx_` clear. -/
theorem c2_sendNext_protocol (t : Thread) (x : JSVal) :
    (t.break_tx = false → t.sendNext x = (t, .immediate x)) ∧
    (t.break_tx = true →
      t.sendNext x = ({ t with break_tx := false },
        .deferredNewTx t.scope_store_names t.scope_mode x)) ∧
    (t.sendNext x).1.break_tx = false := by
  refine ⟨fun hb => ?_, fun hb => ?_, ?_⟩
  · simp [Thread.sendNext, hb]
  · simp [Thread.sendNext, hb]
  · by_cases hb : t.break_tx <;> simp [Thread.sendNext, hb]

/-- Witness for C2 at concrete threads with the flag clear and set. -/
theorem c2_witness :
    let t0 : Thread := mkThread 3 none (some ["orders"]) (some .readwrite) none
    let t1 : Thread := { t0 with break_tx := true, generator := .bound }
    t0.sendNext (.num 7) = (t0, .immediate (.num 7)) ∧
      t1.sendNext (.num 7) = ({ t1 with break_tx := false },
        .deferredNewTx (some ["orders"]) (some .readwrite) (.num 7)) := by
  intro t0 t1
  exact ⟨(c2_sendNext_protocol t0 (.num 7)).1 rfl,
    (c2_sendNext_protocol t1 (.num 7)).2.1 rfl⟩

/-- C3: the commit-triggered continuation (`sendNext_` on a set flag
followed by the new transaction opening) increments `tx_no_` by exactly 1
and resets `r_no_` to 0; and over any counter-affecting event, `tx_no_`
grows by exactly 1 precisely at a new transaction, and `r_no_` becomes 0
precisely at a new transaction. -/
theorem c3_counter_invariants (t : Thread) (x : JSVal) (op : ThreadOp) :
    (t.break_tx = true →
      ((t.sendNext x).1.openNewTx).tx_no = t.tx_no + 1 ∧
        ((t.sendNext x).1.openNewTx).r_no = 0) ∧
    ((t.applyOp op).tx_no = t.tx_no + 1 ↔ op = .openTx) ∧
    ((t.applyOp op).tx_no = t.tx_no ↔ op = .issueReq) ∧
    ((t.applyOp op).r_no = 0 ↔ op = .openTx) := by
  refine ⟨fun hb => ?_, ?_, ?_, ?_⟩
  · simp [Thread.sendNext, hb, Thread.openNewTx]
  · cases op <;> simp [Thread.applyOp, Thread.openNewTx, Thread.issueRequest]
  · cases op <;> simp [Thread.applyOp, Thread.openNewTx, Thread.issueRequest]
  · cases op <;> simp [Thread.applyOp, Thread.openNewTx, Thread.issueRequest]

/-- Witness for C3 at a concrete thread with the flag set. -/
theorem c3_witness :
    let t : Thread := { mkThread 2 (some .SINGLE) (some ["orders"])
        (some .readwrite) none with
      tx_no := 4, r_no := 3, generator := .bound, break_tx := true }
    ((t.sendNext (.num 1)).1.openNewTx).tx_no = 5 ∧
      ((t.sendNext (.num 1)).1.openNewTx).r_no = 0 ∧
      (t.applyOp .issueReq).tx_no = 4 := by
  intro t
  exact ⟨((c3_counter_invariants t (.num 1) .issueReq).1 rfl).1,
    ((c3_counter_invariants t (.num 1) .issueReq).1 rfl).2,
    (c3_counter_invariants t (.num 1) .issueReq).2.2.1.2 rfl⟩

/-- C4: `commit()` throws the "not running in a generator" invalid-operation
error when no coroutine was ever bound, throws the distinct "has been ended"
invalid-operation error when the coroutine has concluded, and otherwise
only sets `break_tx_` to true (every other field unchanged). -/
theorem c4_commit_protocol (t : Thread) :
    (t.generator = .unbound →
      t.commit = .error
        (.invalidOperation "Transaction thread not running in a generator")) ∧
    (t.generator = .ended →
      t.commit = .error
        (.invalidOperation "Coroutine transaction thread has been ended")) ∧
    (t.generator = .bound → t.commit = .ok { t with break_tx := true }) ∧
    JsError.invalidOperation "Transaction thread not running in a generator" ≠
      JsError.invalidOperation "Coroutine transaction thread has been ended" := by
  refine ⟨fun h => ?_, fun h => ?_, fun h => ?_, by decide⟩ <;>
    simp [Thread.commit, h, GenState.isDef, GenState.truthy]

/-- Witness for C4 at concrete threads in each generator state. -/
theorem c4_witness :
    let t : Thread := mkThread 1 none none none none
    t.commit = .error
        (.invalidOperation "Transaction thread not running in a generator") ∧
      Thread.commit { t with generator := .ended } = .error
        (.invalidOperation "Coroutine transaction thread has been ended") ∧
      Thread.commit { t with generator := .bound } =
        .ok { t with generator := .bound, break_tx := true } := by
  intro t
  exact ⟨(c4_commit_protocol t).1 rfl,
    (c4_commit_protocol { t with generator := .ended }).2.1 rfl,
    (c4_commit_protocol { t with generator := .bound }).2.2.1 rfl⟩

/-- C5: on a coroutine-driven thread, a failing operation whose reason is
not a structured error settles into a generic `Error` object whose `error`
side field is the original reason, and that wrapped error is what resumes
the coroutine (synchronously, when no mid-stream commit is pending). -/
theorem c5_failure_wrapping (t : Thread) (method : String)
    (sn : List String) (m : Option TxMode) (oc : Option Unit) (e : JSVal)
    (hgen : t.generator = .bound) (he : e.isError = false)
    (hb : t.break_tx = false) :
    settleResume (t.request method sn m oc).2.wiring (.failure e) =
        some (JSVal.errorWithField e) ∧
      (JSVal.errorWithField e).errField = some e ∧
      t.sendNext (JSVal.errorWithField e) =
        (t, .immediate (JSVal.errorWithField e)) := by
  refine ⟨?_, rfl, ?_⟩
  · simp [Thread.request, hgen, GenState.truthy, settleResume, wrapFailure, he]
  · simp [Thread.sendNext, hb]

/-- Witness for C5: the plain string reason `"disk full"`. -/
theorem c5_witness :
    let t : Thread := { mkThread 1 none (some ["orders"]) (some .readwrite)
        none with generator := .bound }
    settleResume (t.request "get" ["orders"] none none).2.wiring
        (.failure (.str "disk full")) =
        some (JSVal.errorWithField (.str "disk full")) ∧
      (JSVal.errorWithField (.str "disk full")).errField =
        some (JSVal.str "disk full") := by
  intro t
  exact ⟨(c5_failure_wrapping t "get" ["orders"] none none (.str "disk full")
      rfl rfl rfl).1,
    (c5_failure_wrapping t "get" ["orders"] none none (.str "disk full")
      rfl rfl rfl).2.1⟩

/-- C6: `setGenerator` on a thread whose coroutine is already bound fails
with the invariant-violation assertion "thread can have only one generator". -/
theorem c6_setGenerator_single_owner (t : Thread) (h : t.generator = .bound) :
    t.setGenerator =
      .error (.assertionFailure "thread can have only one generator") := by
  simp [Thread.setGenerator, h, GenState.truthy]

/-- Witness for C6 at a concrete bound thread. -/
theorem c6_witness :
    Thread.setGenerator { mkThread 1 none none none none with
        generator := .bound } =
      .error (.assertionFailure "thread can have only one generator") :=
  c6_setGenerator_single_owner _ rfl

/-- C7: the static abort helper throws an invalid-state error with no
active transaction handle, invokes the native abort primitive when the
handle has one, falls back to forcing an engine-level error through
`executeSql` when only that surface exists, and throws not-supported when
the handle offers neither. -/
theorem c7_staticAbort_cases (tx : TxHandle) :
    staticAbort none = .error (.invalidState "No active transaction") ∧
    (tx.hasAbort = true → staticAbort (some tx) = .ok .nativeAbort) ∧
    (tx.hasAbort = false → tx.hasExecuteSql = true →
      staticAbort (some tx) = .ok .forcedSqlError) ∧
    (tx.hasAbort = false → tx.hasExecuteSql = false →
      staticAbort (some tx) = .error .notSupported) := by
  refine ⟨rfl, fun h1 => ?_, fun h1 h2 => ?_, fun h1 h2 => ?_⟩ <;>
    simp [staticAbort, h1]
  · simp [h2]
  · simp [h2]

/-- Witness for C7 at each concrete handle shape. -/
theorem c7_witness :
    staticAbort none = .error (.invalidState "No active transaction") ∧
      staticAbort (some ⟨true, false⟩) = .ok .nativeAbort ∧
      staticAbort (some ⟨false, true⟩) = .ok .forcedSqlError ∧
      staticAbort (some ⟨false, false⟩) = .error .notSupported :=
  ⟨(c7_staticAbort_cases ⟨true, false⟩).1,
    (c7_staticAbort_cases ⟨true, false⟩).2.1 rfl,
    (c7_staticAbort_cases ⟨false, true⟩).2.2.1 rfl rfl,
    (c7_staticAbort_cases ⟨false, false⟩).2.2.2 rfl rfl⟩

/-- C8: `request` returns a fresh request tagged with the given method and
leaves the thread state unchanged; the settlement is wired to the resume
step exactly when a coroutine is bound (a success value is then delivered
to `sendNext_` as-is), and with no bound coroutine any settlement delivers
nothing and triggers no resume. -/
theorem c8_request_wiring (t : Thread) (method : String) (sn : List String)
    (m : Option TxMode) (oc : Option Unit) :
    (t.request method sn m oc).1 = t ∧
    (t.request method sn m oc).2.method = method ∧
    (t.generator = .bound →
      (t.request method sn m oc).2.wiring = .genWiring ∧
      ∀ x, settleResume (t.request method sn m oc).2.wiring (.success x) =
        some x) ∧
    (t.generator ≠ .bound →
      (t.request method sn m oc).2.wiring = .noWiring ∧
      ∀ s, settleResume (t.request method sn m oc).2.wiring s = none) := by
  refine ⟨rfl, rfl, fun h => ?_, fun h => ?_⟩
  · simp [Thread.request, h, GenState.truthy, settleResume]
  · have hfalse : t.generator.truthy = false := by
      cases hg : t.generator
      · rfl
      · exact absurd hg h
      · rfl
    simp [Thread.request, hfalse, settleResume]

/-- Witness for C8 on a bound and an unbound thread. -/
theorem c8_witness :
    let t0 : Thread := mkThread 1 none none none none
    let t1 : Thread := { t0 with generator := .bound }
    (t1.request "put" ["orders"] (some .readwrite) none).2.method = "put" ∧
      settleResume (t1.request "put" ["orders"] (some .readwrite) none).2.wiring
        (.success (.num 9)) = some (.num 9) ∧
      settleResume (t0.request "put" ["orders"] (some .readwrite)
        none).2.wiring (.success (.num 9)) = none := by
  intro t0 t1
  refine ⟨(c8_request_wiring t1 "put" ["orders"] (some .readwrite) none).2.1,
    ((c8_request_wiring t1 "put" ["orders"] (some .readwrite) none).2.2.1
      rfl).2 (.num 9),
    ((c8_request_wiring t0 "put" ["orders"] (some .readwrite) none).2.2.2
      (by decide)).2 (.success (.num 9))⟩

/-- C9: `getLabel` is determined by the queue number and transaction
number, and conversely determines both: two threads agree on the label
exactly when they agree on `q_no_` and `tx_no_`. -/
theorem c9_getLabel_composite (t1 t2 : Thread) :
    (t1.q_no = t2.q_no → t1.tx_no = t2.tx_no → t1.getLabel = t2.getLabel) ∧
    (t1.getLabel = t2.getLabel → t1.q_no = t2.q_no ∧ t1.tx_no = t2.tx_no) := by
  constructor
  · intro h1 h2
    simp [Thread.getLabel, h1, h2]
  · intro h
    have hdata : ('B' :: (natDec t1.q_no ++ 'T' :: natDec t1.tx_no)) =
        ('B' :: (natDec t2.q_no ++ 'T' :: natDec t2.tx_no)) := by
      simpa [Thread.getLabel, String.ext_iff] using h
    have htail := List.cons.inj hdata |>.2
    obtain ⟨hq, ht⟩ := split_at_T natDec_no_T natDec_no_T htail
    exact ⟨natDec_injective hq, natDec_injective ht⟩

/-- Witness for C9: two concrete threads differing everywhere except in
queue and transaction number have equal labels, and equal labels recover
the two numbers. -/
theorem c9_witness :
    let tA : Thread := { mkThread 12 (some .MULTI) (some ["a"]) none none with
      tx_no := 34, r_no := 9, generator := .bound }
    let tB : Thread := { mkThread 12 none none (some .readonly) none with
      tx_no := 34, break_tx := true }
    tA.getLabel = tB.getLabel ∧ (tA.q_no = tB.q_no ∧ tA.tx_no = tB.tx_no) := by
  intro tA tB
  exact ⟨(c9_getLabel_composite tA tB).1 rfl rfl,
    (c9_getLabel_composite tA tB).2 ((c9_getLabel_composite tA tB).1 rfl rfl)⟩

/-- C10: a failure reason that is already a structured `Error` is delivered
to the resume step unchanged — exactly the same value, no wrapping. -/
theorem c10_error_passthrough (t : Thread) (method : String)
    (sn : List String) (m : Option TxMode) (oc : Option Unit) (e : JSVal)
    (hgen : t.generator = .bound) (he : e.isError = true) :
    settleResume (t.request method sn m oc).2.wiring (.failure e) = some e := by
  simp [Thread.request, hgen, GenState.truthy, settleResume, wrapFailure, he]

/-- Witness for C10: an `Error` reason carrying a side field passes
through identically. -/
theorem c10_witness :
    settleResume
      (Thread.request { mkThread 1 none none none none with
          generator := .bound } "get" ["orders"] none none).2.wiring
      (.failure (.errorWithField (.str "quota"))) =
      some (.errorWithField (.str "quota")) :=
  c10_error_passthrough _ "get" ["orders"] none none _ rfl rfl

end YdnDb
